import Mathlib

/-!
Shallow embedding of the dual-mode owner cell (inline-arc).

The Rust type `Arc<T>` holds an `UnsafeCell<ArcData<T>>` where
`ArcData<T>` is `Inline(T) | Shared(StdArc<T>) | Poisoned`.  The backing
`std::sync::Arc` / `Weak` pair is modelled by an explicit heap of
refcount blocks: each block stores the payload, its strong count and its
weak count.  A `StdArc` handle and a `Weak` handle are both block ids.
The memory also carries a counter `dups` of payload-duplication
(`T::clone`) invocations, which the spec's testable properties count.
Panics (on a poisoned cell) are modelled by `Option`: `none` is a panic.
-/

namespace InlineArc

/-- One atomically reference-counted allocation of the standard library:
a payload together with its strong and weak counts. -/
structure Block (V : Type) where
  val : V
  strong : Nat
  weak : Nat
  deriving DecidableEq

/-- The heap of shared blocks, plus a counter of payload-duplication
(`T::clone`) invocations. Blocks are addressed by their list index;
allocation appends. -/
structure Mem (V : Type) where
  blocks : List (Block V)
  dups : Nat
  deriving DecidableEq

/-- `ArcData<T>`: the three-state internal representation of the cell. -/
inductive ArcData (V : Type) where
  | inline (v : V)
  | shared (id : Nat)
  | poisoned
  deriving DecidableEq

variable {V : Type}

/-- Replace the block at index `i` by `f` of it (identity out of range). -/
def modifyBlock : List (Block V) → Nat → (Block V → Block V) → List (Block V)
  | [], _, _ => []
  | b :: bs, 0, f => f b :: bs
  | b :: bs, i + 1, f => b :: modifyBlock bs i f

/-- Look up the block at index `i`. -/
def Mem.block (m : Mem V) (i : Nat) : Option (Block V) :=
  m.blocks[i]?

/-- `StdArc::new`: allocate a fresh block with strong count 1, weak count 0,
returning its id. -/
def Mem.alloc (m : Mem V) (v : V) : Nat × Mem V :=
  (m.blocks.length, { m with blocks := m.blocks ++ [⟨v, 1, 0⟩] })

/-- `StdArc::clone` on a handle to block `i`: increment the strong count. -/
def Mem.incStrong (m : Mem V) (i : Nat) : Mem V :=
  { m with blocks := modifyBlock m.blocks i fun b => { b with strong := b.strong + 1 } }

/-- Dropping a `StdArc` handle to block `i`: decrement the strong count. -/
def Mem.decStrong (m : Mem V) (i : Nat) : Mem V :=
  { m with blocks := modifyBlock m.blocks i fun b => { b with strong := b.strong - 1 } }

/-- `StdArc::downgrade` on a handle to block `i`: increment the weak count. -/
def Mem.incWeak (m : Mem V) (i : Nat) : Mem V :=
  { m with blocks := modifyBlock m.blocks i fun b => { b with weak := b.weak + 1 } }

/-- Record one invocation of the payload duplication routine `T::clone`. -/
def Mem.dup (m : Mem V) : Mem V :=
  { m with dups := m.dups + 1 }

/-- `Arc::new`: wrap the value inline; the heap is untouched (no
shared-refcount-block allocation). -/
def Arc.new (v : V) (m : Mem V) : ArcData V × Mem V :=
  (ArcData.inline v, m)

/-- `Deref::deref`: the inline value, or the shared block's payload;
panic (`none`) when poisoned. -/
def Arc.deref : ArcData V → Mem V → Option V
  | ArcData.inline v, _ => some v
  | ArcData.shared i, m => (m.block i).map Block.val
  | ArcData.poisoned, _ => none

/-- `Arc::strong_count`: 1 when inline, else the shared block's strong
count; panic when poisoned. -/
def Arc.strong_count : ArcData V → Mem V → Option Nat
  | ArcData.inline _, _ => some 1
  | ArcData.shared i, m => (m.block i).map Block.strong
  | ArcData.poisoned, _ => none

/-- `Arc::weak_count`: 0 when inline, else the shared block's weak count;
panic when poisoned. -/
def Arc.weak_count : ArcData V → Mem V → Option Nat
  | ArcData.inline _, _ => some 0
  | ArcData.shared i, m => (m.block i).map Block.weak
  | ArcData.poisoned, _ => none

/-- `Arc::get_mut`: `Some` of the payload exactly when inline, `None`
when shared; panic when poisoned.  (Outer `Option` is the panic.) -/
def Arc.get_mut : ArcData V → Option (Option V)
  | ArcData.inline v => some (some v)
  | ArcData.shared _ => some none
  | ArcData.poisoned => none

/-- `Arc::try_unwrap`: `this` is consumed by value and `ptr::read`
bitwise-copies the state out; since nothing forgets `this`, its drop at
function exit drops the original bits a second time.  Inline: `Ok`
(= `Sum.inl`) of the copied payload (the payload's own double drop has
no heap effect in this model).  Shared: `Err` (= `Sum.inr`) of a cell
wrapping the copied handle, while the dropped original handle
decrements the block's strong count.  Panic when poisoned. -/
def Arc.try_unwrap : ArcData V → Mem V → Option ((V ⊕ ArcData V) × Mem V)
  | ArcData.inline v, m => some (Sum.inl v, m)
  | ArcData.shared i, m => some (Sum.inr (ArcData.shared i), m.decStrong i)
  | ArcData.poisoned, _ => none

/-- `Clone::clone`: the state is moved out by `mem::replace`, leaving
`Poisoned`.  Inline promotes: allocate a block holding the moved
payload, `StdArc::clone` it (strong becomes 2), write `Shared` back into
the original cell, return a new shared cell.  Shared: the new cell wraps
`val.clone()` (strong +1), but nothing is ever written back — the
original cell stays `Poisoned` — and the moved-out `val` is dropped at
the end of the arm (strong -1).  Returns (the original cell after the
call, the new cell, the heap). -/
def Arc.clone : ArcData V → Mem V → Option (ArcData V × ArcData V × Mem V)
  | ArcData.inline v, m =>
    let a := m.alloc v
    some (ArcData.shared a.1, ArcData.shared a.1, a.2.incStrong a.1)
  | ArcData.shared i, m =>
    some (ArcData.poisoned, ArcData.shared i, (m.incStrong i).decStrong i)
  | ArcData.poisoned, _ => none

/-- `Arc::downgrade`: the state is moved out by `mem::replace`, leaving
`Poisoned`.  Inline promotes: allocate a block, derive a weak handle
(weak becomes 1), write `Shared` back.  Shared: derive a weak handle
from the moved-out `val` (weak +1), but nothing is written back — the
cell stays `Poisoned` — and dropping `val` decrements the strong count.
Returns (the cell after the call, the weak handle's block id, the
heap). -/
def Arc.downgrade : ArcData V → Mem V → Option (ArcData V × Nat × Mem V)
  | ArcData.inline v, m =>
    let a := m.alloc v
    some (ArcData.shared a.1, a.1, a.2.incWeak a.1)
  | ArcData.shared i, m =>
    some (ArcData.poisoned, i, (m.incWeak i).decStrong i)
  | ArcData.poisoned, _ => none

/-- `Arc::make_mut` fused with a mutation `f` applied through the returned
mutable reference.  Inline mutates in place; shared unconditionally
duplicates the block's payload (`(&**val).clone()`, counted in `dups`),
replaces the cell by the inline duplicate, and drops the old strong
handle (`mem::replace` discards it), decrementing the block's strong
count.  Panic when poisoned. -/
def Arc.make_mut (f : V → V) : ArcData V → Mem V → Option (ArcData V × Mem V)
  | ArcData.inline v, m => some (ArcData.inline (f v), m)
  | ArcData.shared i, m =>
    match m.block i with
    | some b => some (ArcData.inline (f b.val), (m.dup).decStrong i)
    | none => none
  | ArcData.poisoned, _ => none

/-- Dropping a whole cell: inline drops the payload (no heap effect),
shared drops its strong handle. -/
def Arc.drop : ArcData V → Mem V → Mem V
  | ArcData.inline _, m => m
  | ArcData.shared i, m => m.decStrong i
  | ArcData.poisoned, m => m

/-- `Weak::upgrade`: succeeds (incrementing the strong count and returning
a `StdArc` handle, i.e. the block id) exactly when the block is still
alive (strong count positive). -/
def Weak.upgrade (i : Nat) (m : Mem V) : Option (Nat × Mem V) :=
  match m.block i with
  | some b => if 0 < b.strong then some (i, m.incStrong i) else none
  | none => none

/-- Dereference a bare `StdArc` handle (block id). -/
def stdDeref (i : Nat) (m : Mem V) : Option V :=
  (m.block i).map Block.val

/-- A cell state is legitimate when it is one of the two public states,
never the transient poison marker. -/
def ArcData.legit : ArcData V → Bool
  | ArcData.poisoned => false
  | _ => true

/-! ### Heap lemmas -/

theorem modifyBlock_get (bs : List (Block V)) (i j : Nat) (f : Block V → Block V) :
    (modifyBlock bs i f)[j]? = if j = i then (bs[j]?).map f else bs[j]? := by
  induction bs generalizing i j with
  | nil => simp [modifyBlock]
  | cons b bs ih =>
    cases i with
    | zero =>
      cases j with
      | zero => simp [modifyBlock]
      | succ j => simp [modifyBlock]
    | succ i =>
      cases j with
      | zero => simp [modifyBlock]
      | succ j => simpa [modifyBlock] using ih i j

theorem modifyBlock_concat (bs : List (Block V)) (b : Block V) (f : Block V → Block V) :
    modifyBlock (bs ++ [b]) bs.length f = bs ++ [f b] := by
  induction bs with
  | nil => rfl
  | cons x bs ih => simpa [modifyBlock] using ih

theorem getElem?_concat (bs : List (Block V)) (b : Block V) :
    (bs ++ [b])[bs.length]? = some b := by
  induction bs with
  | nil => rfl
  | cons x bs ih => simp [ih]

/-- Closed form of cloning an inline cell: one fresh block with strong
count 2, both cells shared, no payload duplication. -/
theorem clone_inline (v : V) (m : Mem V) :
    Arc.clone (ArcData.inline v) m =
      some (ArcData.shared m.blocks.length, ArcData.shared m.blocks.length,
        ⟨m.blocks ++ [⟨v, 2, 0⟩], m.dups⟩) := by
  simp [Arc.clone, Mem.alloc, Mem.incStrong, modifyBlock_concat]

/-- Closed form of downgrading an inline cell: one fresh block with strong
count 1 and weak count 1, cell becomes shared. -/
theorem downgrade_inline (v : V) (m : Mem V) :
    Arc.downgrade (ArcData.inline v) m =
      some (ArcData.shared m.blocks.length, m.blocks.length,
        ⟨m.blocks ++ [⟨v, 1, 1⟩], m.dups⟩) := by
  simp [Arc.downgrade, Mem.alloc, Mem.incWeak, modifyBlock_concat]

/-- A block modification that preserves the payload leaves every
dereference unchanged. -/
theorem block_modify_val (bs : List (Block V)) (i j : Nat) (f : Block V → Block V)
    (hf : ∀ b, (f b).val = b.val) :
    ((modifyBlock bs i f)[j]?).map Block.val = (bs[j]?).map Block.val := by
  rw [modifyBlock_get]
  split
  · cases bs[j]? with
    | none => rfl
    | some b => simp [hf]
  · rfl

/-! ### Claim theorems -/

/-- Claim C7: for every value v, the freshly constructed cell new(v) is
Exclusive: strong_count is 1, weak_count is 0, get_mut returns the value,
and construction leaves the heap untouched (no shared-refcount-block
allocation) and never fails. -/
theorem C7_new_exclusive (v : V) (m : Mem V) :
    Arc.strong_count (Arc.new v m).1 (Arc.new v m).2 = some 1 ∧
    Arc.weak_count (Arc.new v m).1 (Arc.new v m).2 = some 0 ∧
    Arc.get_mut (Arc.new v m).1 = some (some v) ∧
    (Arc.new v m).1 = ArcData.inline v ∧
    (Arc.new v m).2 = m := by
  simp [Arc.new, Arc.strong_count, Arc.weak_count, Arc.get_mut]

/-- Claim C5: get_mut returns a reference to the payload exactly when the
cell is Exclusive; on a Shared cell it returns unavailable (None)
regardless of the block's strong and weak counts; in particular both
cells produced by a promotion get None. -/
theorem C5_get_mut_iff (c : ArcData V) :
    (∀ v, Arc.get_mut c = some (some v) ↔ c = ArcData.inline v) ∧
    (Arc.get_mut c = some none ↔ ∃ i, c = ArcData.shared i) ∧
    (∀ (v : V) (m : Mem V) (c1 c2 : ArcData V) (m' : Mem V),
      Arc.clone (ArcData.inline v) m = some (c1, c2, m') →
      Arc.get_mut c1 = some none ∧ Arc.get_mut c2 = some none) := by
  refine ⟨?_, ?_, ?_⟩
  · intro v; cases c <;> simp [Arc.get_mut]
  · cases c <;> simp [Arc.get_mut]
  · intro v m c1 c2 m' h
    rw [clone_inline] at h
    cases h
    simp [Arc.get_mut]

/-- Claim C1, evaluated at the failing input: a Shared cell that is the
last strong handle with no weak references outstanding (strong_count 1,
weak_count 0, reached by cloning new(5) and dropping the second handle).
The claim says try_unwrap succeeds here, returning the payload; the code
fails (the Shared arm never consults the refcount) and, because the
consumed cell is dropped without mem::forget after ptr::read, the
block's strong count falls to 0: the payload is freed while the
returned Err cell still wraps a handle to it. -/
theorem C1_try_unwrap_bug :
    Arc.clone (ArcData.inline (5 : Nat)) ⟨[], 0⟩ =
      some (ArcData.shared 0, ArcData.shared 0, ⟨[⟨5, 2, 0⟩], 0⟩) ∧
    Arc.drop (ArcData.shared 0) (⟨[⟨5, 2, 0⟩], 0⟩ : Mem Nat) = ⟨[⟨5, 1, 0⟩], 0⟩ ∧
    Arc.strong_count (ArcData.shared 0) (⟨[⟨5, 1, 0⟩], 0⟩ : Mem Nat) = some 1 ∧
    Arc.weak_count (ArcData.shared 0) (⟨[⟨5, 1, 0⟩], 0⟩ : Mem Nat) = some 0 ∧
    Arc.try_unwrap (ArcData.shared 0) (⟨[⟨5, 1, 0⟩], 0⟩ : Mem Nat) =
      some (Sum.inr (ArcData.shared 0), ⟨[⟨5, 0, 0⟩], 0⟩) ∧
    Arc.strong_count (ArcData.shared 0) (⟨[⟨5, 0, 0⟩], 0⟩ : Mem Nat) = some 0 := by
  decide

/-- Claim C2, evaluated: the spec's concrete scenario.  After the
divergence, the final make_mut on b (a Shared cell whose block has strong
count 1) still invokes payload duplication — dups rises from 1 to 2 —
although the resulting values are as stated: a derefs to 8 and b to 12. -/
theorem C2_scenario :
    Arc.make_mut (· + 1) (ArcData.inline (5 : Nat)) ⟨[], 0⟩ =
      some (ArcData.inline 6, ⟨[], 0⟩) ∧
    Arc.clone (ArcData.inline (6 : Nat)) ⟨[], 0⟩ =
      some (ArcData.shared 0, ArcData.shared 0, ⟨[⟨6, 2, 0⟩], 0⟩) ∧
    Arc.make_mut (· + 1) (ArcData.shared 0) (⟨[⟨6, 2, 0⟩], 0⟩ : Mem Nat) =
      some (ArcData.inline 7, ⟨[⟨6, 1, 0⟩], 1⟩) ∧
    Arc.make_mut (· + 1) (ArcData.inline (7 : Nat)) ⟨[⟨6, 1, 0⟩], 1⟩ =
      some (ArcData.inline 8, ⟨[⟨6, 1, 0⟩], 1⟩) ∧
    Arc.make_mut (· * 2) (ArcData.shared 0) (⟨[⟨6, 1, 0⟩], 1⟩ : Mem Nat) =
      some (ArcData.inline 12, ⟨[⟨6, 0, 0⟩], 2⟩) := by
  decide

/-- Claim C4: make_mut on an Exclusive cell never duplicates the payload
and mutates it in place; on a Shared cell it duplicates exactly once
(dups rises by one) and the mutation is invisible to every co-existing
clone, which still dereferences to the old block value. -/
theorem C4_make_mut_cow (f : V → V) (v : V) (i : Nat) (m : Mem V) (b : Block V)
    (h : m.block i = some b) :
    Arc.make_mut f (ArcData.inline v) m = some (ArcData.inline (f v), m) ∧
    ∃ m', Arc.make_mut f (ArcData.shared i) m = some (ArcData.inline (f b.val), m') ∧
      m'.dups = m.dups + 1 ∧
      ∀ j : Nat, Arc.deref (ArcData.shared j) m' = Arc.deref (ArcData.shared j) m := by
  refine ⟨rfl, (m.dup).decStrong i, ?_, rfl, ?_⟩
  · simp [Arc.make_mut, h]
  · intro j
    simp only [Arc.deref, Mem.decStrong, Mem.dup, Mem.block]
    exact block_modify_val m.blocks i j _ fun b => rfl

/-- Witness for C4 at f = +1, payload 9 shared in one block. -/
theorem C4_witness :
    Arc.make_mut (· + 1) (ArcData.inline (4 : Nat)) ⟨[⟨9, 1, 0⟩], 0⟩ =
      some (ArcData.inline 5, ⟨[⟨9, 1, 0⟩], 0⟩) ∧
    ∃ m', Arc.make_mut (· + 1) (ArcData.shared 0) (⟨[⟨9, 1, 0⟩], 0⟩ : Mem Nat) =
        some (ArcData.inline 10, m') ∧
      m'.dups = (⟨[⟨9, 1, 0⟩], 0⟩ : Mem Nat).dups + 1 ∧
      ∀ j : Nat, Arc.deref (ArcData.shared j) m' =
        Arc.deref (ArcData.shared j) (⟨[⟨9, 1, 0⟩], 0⟩ : Mem Nat) :=
  C4_make_mut_cow (· + 1) 4 0 ⟨[⟨9, 1, 0⟩], 0⟩ ⟨9, 1, 0⟩ rfl

/-- Claim C6: downgrade on an Exclusive cell promotes it to Shared as a
side effect and returns a weak handle; immediately afterwards
strong_count is still 1 and weak_count is 1. -/
theorem C6_downgrade_promotes (v : V) (m : Mem V) :
    ∃ i m', Arc.downgrade (ArcData.inline v) m = some (ArcData.shared i, i, m') ∧
      Arc.strong_count (ArcData.shared i) m' = some 1 ∧
      Arc.weak_count (ArcData.shared i) m' = some 1 := by
  refine ⟨m.blocks.length, _, downgrade_inline v m, ?_, ?_⟩ <;>
    simp [Arc.strong_count, Arc.weak_count, Mem.block, getElem?_concat]

/-- Claim C10: after make_mut on a Shared cell the cell is Exclusive
(strong_count 1, weak_count 0, get_mut succeeds) and the old strong
handle has been released: the old block's strong count, as any remaining
clone observes it, has decreased by exactly one. -/
theorem C10_make_mut_releases (f : V → V) (i : Nat) (m : Mem V) (b : Block V)
    (h : m.block i = some b) (hpos : 0 < b.strong) :
    ∃ c' m', Arc.make_mut f (ArcData.shared i) m = some (c', m') ∧
      Arc.strong_count c' m' = some 1 ∧
      Arc.weak_count c' m' = some 0 ∧
      (∃ v, Arc.get_mut c' = some (some v)) ∧
      ∃ s, Arc.strong_count (ArcData.shared i) m' = some s ∧ s + 1 = b.strong := by
  refine ⟨ArcData.inline (f b.val), (m.dup).decStrong i, ?_, rfl, rfl,
    ⟨f b.val, rfl⟩, b.strong - 1, ?_, ?_⟩
  · simp [Arc.make_mut, h]
  · simp only [Arc.strong_count, Mem.decStrong, Mem.dup, Mem.block] at h ⊢
    rw [modifyBlock_get]
    simp [h]
  · omega

/-- Witness for C10 on a block with strong count 2. -/
theorem C10_witness :
    ∃ c' m', Arc.make_mut (· + 1) (ArcData.shared 0) (⟨[⟨3, 2, 1⟩], 0⟩ : Mem Nat) =
        some (c', m') ∧
      Arc.strong_count c' m' = some 1 ∧
      Arc.weak_count c' m' = some 0 ∧
      (∃ v, Arc.get_mut c' = some (some v)) ∧
      ∃ s, Arc.strong_count (ArcData.shared 0) m' = some s ∧
        s + 1 = (⟨3, 2, 1⟩ : Block Nat).strong :=
  C10_make_mut_releases (· + 1) 0 ⟨[⟨3, 2, 1⟩], 0⟩ ⟨3, 2, 1⟩ rfl (by decide)

/-- Claim C9, evaluated: clone and downgrade on a Shared cell return
normally yet leave the original cell Poisoned — the state moved out by
mem::replace is never written back in the Shared arms — so the poison
state escapes the operation boundary, and the next operation on that
cell (deref, get_mut, anything) panics. -/
theorem C9_poison_escape :
    Arc.clone (ArcData.shared 0) (⟨[⟨7, 2, 0⟩], 0⟩ : Mem Nat) =
      some (ArcData.poisoned, ArcData.shared 0, ⟨[⟨7, 2, 0⟩], 0⟩) ∧
    Arc.downgrade (ArcData.shared 0) (⟨[⟨7, 2, 0⟩], 0⟩ : Mem Nat) =
      some (ArcData.poisoned, 0, ⟨[⟨7, 1, 1⟩], 0⟩) ∧
    (ArcData.poisoned : ArcData Nat).legit = false ∧
    Arc.deref (ArcData.poisoned : ArcData Nat) (⟨[⟨7, 2, 0⟩], 0⟩ : Mem Nat) = none ∧
    Arc.get_mut (ArcData.poisoned : ArcData Nat) = none := by
  decide

/-- Claim C3, evaluated at the failing input: the promotion itself is as
claimed (two cells sharing one fresh block at strong count 2, payload
never duplicated), but the subsequent clone of a Shared cell is not a
refcount increment: the +1 from val.clone() is cancelled by the drop of
the moved-out handle (the strong count stays 2 although three handles
now exist), and the source cell is left Poisoned, so every later
operation on it panics instead of observing strong_count 2. -/
theorem C3_clone_shared_bug :
    Arc.clone (ArcData.inline (5 : Nat)) ⟨[], 0⟩ =
      some (ArcData.shared 0, ArcData.shared 0, ⟨[⟨5, 2, 0⟩], 0⟩) ∧
    Arc.deref (ArcData.shared 0) (⟨[⟨5, 2, 0⟩], 0⟩ : Mem Nat) = some 5 ∧
    Arc.strong_count (ArcData.shared 0) (⟨[⟨5, 2, 0⟩], 0⟩ : Mem Nat) = some 2 ∧
    Arc.clone (ArcData.shared 0) (⟨[⟨5, 2, 0⟩], 0⟩ : Mem Nat) =
      some (ArcData.poisoned, ArcData.shared 0, ⟨[⟨5, 2, 0⟩], 0⟩) ∧
    (ArcData.poisoned : ArcData Nat).legit = false ∧
    Arc.strong_count (ArcData.poisoned : ArcData Nat) (⟨[⟨5, 2, 0⟩], 0⟩ : Mem Nat) =
      none := by
  decide

/-- Claim C8, evaluated at the failing input: a Shared cell holding the
sole strong handle (strong 1, weak 0, reached by cloning new(5) and
dropping one handle; no strong holder has dropped since).  downgrade
derives the weak handle (weak becomes 1) but then drops the moved-out
strong handle without writing the state back: the cell is left Poisoned
and the strong count falls to 0, so the immediate upgrade fails instead
of always succeeding with the cell's value. -/
theorem C8_roundtrip_bug :
    Arc.clone (ArcData.inline (5 : Nat)) ⟨[], 0⟩ =
      some (ArcData.shared 0, ArcData.shared 0, ⟨[⟨5, 2, 0⟩], 0⟩) ∧
    Arc.drop (ArcData.shared 0) (⟨[⟨5, 2, 0⟩], 0⟩ : Mem Nat) = ⟨[⟨5, 1, 0⟩], 0⟩ ∧
    Arc.strong_count (ArcData.shared 0) (⟨[⟨5, 1, 0⟩], 0⟩ : Mem Nat) = some 1 ∧
    Arc.downgrade (ArcData.shared 0) (⟨[⟨5, 1, 0⟩], 0⟩ : Mem Nat) =
      some (ArcData.poisoned, 0, ⟨[⟨5, 0, 1⟩], 0⟩) ∧
    Weak.upgrade 0 (⟨[⟨5, 0, 1⟩], 0⟩ : Mem Nat) = none := by
  decide

end InlineArc
